import Mathlib

/-!
Shallow embedding of the market-dashboard repository (TypeScript sources:
`services/marketService.ts` = src/unnamed/part_003, `components/MarketChart.tsx`,
`components/AIAnalysisPanel.tsx` = src/components/AIAnalysisPanel.tsx which also
holds InfoPanel, and `App.tsx`).

Modelling conventions:
* JavaScript numbers are modelled by `JSNum`: either NaN or a rational.
  Upstream JSON string fields appear here as the `JSNum` image of the
  JavaScript primitive `parseFloat` (external to the repository), so a
  malformed string is `JSNum.nan`.
* `safeFetch` returns the parsed JSON body or `null` on a non-2xx status,
  a network error, or a JSON-parse failure; we model its outcome as an
  `Option` payload: `none` is the `null` (failure) case.
* Stateless React render derivations are modelled as pure functions of the
  props the component receives.
-/

/-- A JavaScript number: NaN or an ordinary (rational) value. -/
inductive JSNum where
  | nan : JSNum
  | num : ℚ → JSNum
deriving DecidableEq, Repr

namespace JSNum

/-- JavaScript truthiness of a number: `0` and `NaN` are falsy. -/
def truthy : JSNum → Bool
  | nan => false
  | num q => q != 0

/-- The JavaScript comparison `x > 0` (false on NaN). -/
def gtZero : JSNum → Bool
  | nan => false
  | num q => 0 < q

/-- JavaScript subtraction: NaN absorbs. -/
def sub : JSNum → JSNum → JSNum
  | num a, num b => num (a - b)
  | _, _ => nan

/-- JavaScript multiplication: NaN absorbs. -/
def mul : JSNum → JSNum → JSNum
  | num a, num b => num (a * b)
  | _, _ => nan

/-- JavaScript division restricted to the use sites of the code, where the
divisor is guarded to be positive; NaN absorbs. -/
def div : JSNum → JSNum → JSNum
  | num a, num b => if b = 0 then nan else num (a / b)
  | _, _ => nan

end JSNum

/-- One kline (candle) row of the upstream candlestick endpoint
`[openTime, open, high, low, close, ...]`; index 0 is the open-time key used
for joining, indexes 2, 3, 4 are the high/low/close string fields, kept here
as their `parseFloat` images. -/
structure Candle where
  openTime : Int
  high : JSNum
  low : JSNum
  close : JSNum
deriving DecidableEq, Repr

/-- The ticker endpoint body `{lastPrice, priceChangePercent, priceChange}`
(fields kept as their `parseFloat` images). -/
structure TickerData where
  lastPrice : JSNum
  priceChangePercent : JSNum
  priceChange : JSNum
deriving DecidableEq, Repr

/-- The funding-rate endpoint body `{lastFundingRate}` (parseFloat image). -/
structure FundingData where
  lastFundingRate : JSNum
deriving DecidableEq, Repr

/-- Result shape of `fetchBTCPrice`: the fallback branch carries no
`change24h` field, hence the `Option`. -/
structure BTCQuote where
  price : JSNum
  changePercent : JSNum
  change24h : Option JSNum
deriving DecidableEq, Repr

/-- Result shape of `fetchGoldPrice`. -/
structure GoldQuote where
  price : JSNum
  changePercent : JSNum
deriving DecidableEq, Repr

/-- `FundingRate` record of `types.ts` (the optional `predicted` field is
never produced by the service and is omitted). -/
structure FundingRate where
  exchange : String
  rate : JSNum
deriving DecidableEq, Repr

/-- `HighLowData` record of `types.ts`. -/
structure HighLowData where
  timeframe : String
  high : JSNum
  low : JSNum
  rangePercent : JSNum
deriving DecidableEq, Repr

/-- `ChartDataPoint` record of `types.ts`. -/
structure ChartDataPoint where
  time : String
  timestamp : Int
  btc : JSNum
  xau : JSNum
deriving DecidableEq, Repr

/-- `TimeFrame` enum of `types.ts`. -/
inductive TimeFrame where
  | H1 | H4 | D1 | D7
deriving DecidableEq, Repr, Fintype

/-- `ChartMode` union type of `types.ts`. -/
inductive ChartMode where
  | combined | btc | gold
deriving DecidableEq, Repr, Fintype

/-- `fetchBTCPrice`: `if (!data) return {price: 95000, changePercent: 0}`,
otherwise the parsed ticker fields. -/
def fetchBTCPrice (data : Option TickerData) : BTCQuote :=
  match data with
  | none => ⟨JSNum.num 95000, JSNum.num 0, none⟩
  | some d => ⟨d.lastPrice, d.priceChangePercent, some d.priceChange⟩

/-- `fetchGoldPrice`: `if (!data) return {price: 2650, changePercent: 0}`,
otherwise the parsed ticker fields. -/
def fetchGoldPrice (data : Option TickerData) : GoldQuote :=
  match data with
  | none => ⟨JSNum.num 2650, JSNum.num 0⟩
  | some d => ⟨d.lastPrice, d.priceChangePercent⟩

/-- `fetchFundingRates`: one real request (Binance) with ternary fallback
`binanceData ? parseFloat(binanceData.lastFundingRate) : 0.0100`, plus a
synthesised Bybit rate `0.01 + Math.random() * 0.005` taken here as a
parameter. -/
def fetchFundingRates (binanceData : Option FundingData) (bybitRate : ℚ) :
    List FundingRate :=
  [ { exchange := "Binance"
      rate := match binanceData with
        | some d => d.lastFundingRate
        | none => JSNum.num (1/100) },
    { exchange := "Bybit", rate := JSNum.num bybitRate } ]

/-- One entry of the `definitions` array inside `fetchHighLow`. -/
structure HLDef where
  label : String
  interval : String
  limit : Nat
deriving DecidableEq, Repr

/-- The `definitions` array of `fetchHighLow`, in source order. -/
def hlDefinitions : List HLDef :=
  [⟨"1H", "1h", 2⟩, ⟨"4H", "4h", 2⟩, ⟨"24H", "1d", 1⟩, ⟨"7D", "1w", 1⟩]

/-- The guarded range formula of `fetchHighLow`:
`low > 0 ? ((high - low) / low) * 100 : 0`. -/
def hlRange (high low : JSNum) : JSNum :=
  if low.gtZero then ((high.sub low).div low).mul (JSNum.num 100)
  else JSNum.num 0

/-- One window's result inside `fetchHighLow`: empty or missing kline data
gives the zero-valued record, otherwise the last candle's high/low and
the guarded range. (`data[data.length - 1]` is the last element.) -/
def hlEntry (label : String) (data : Option (List Candle)) : HighLowData :=
  match data with
  | none => ⟨label, JSNum.num 0, JSNum.num 0, JSNum.num 0⟩
  | some cs =>
    match cs.getLast? with
    | none => ⟨label, JSNum.num 0, JSNum.num 0, JSNum.num 0⟩
    | some candle => ⟨label, candle.high, candle.low, hlRange candle.high candle.low⟩

/-- `fetchHighLow`: one request per configured window, results kept in the
`definitions` order (`Promise.all` preserves positional order); `resp`
gives each window's `safeFetch` outcome. -/
def fetchHighLow (resp : HLDef → Option (List Candle)) : List HighLowData :=
  hlDefinitions.map (fun d => hlEntry d.label (resp d))

/-- The `switch (timeFrame)` of `fetchChartData`, mapping the selected time
frame to the requested (candle interval, point count) pair. -/
def chartParams : TimeFrame → String × Nat
  | TimeFrame.H1 => ("1m", 60)
  | TimeFrame.H4 => ("5m", 48)
  | TimeFrame.D1 => ("15m", 96)
  | TimeFrame.D7 => ("2h", 84)

/-- The gold lookup map of `fetchChartData`: `goldKlines.forEach(k =>
goldMap.set(k[0], parseFloat(k[4])))` — `Map.set` overwrites, so the last
occurrence of a timestamp wins. -/
def goldMapGet (gs : List Candle) (ts : Int) : Option JSNum :=
  (gs.reverse.find? (fun g => g.openTime == ts)).map (fun g => g.close)

/-- The falsy-coercion substitution `goldMap.get(timestamp) || 2650`:
a missing key (`undefined`), `0` and `NaN` all fall to the default. -/
def jsOrDefault (v : Option JSNum) (d : ℚ) : JSNum :=
  match v with
  | some x => if x.truthy then x else JSNum.num d
  | none => JSNum.num d

/-- One output point of the join in `fetchChartData`; `dateFmt`/`timeFmt`
stand for the external locale formatters `toLocaleDateString` /
`toLocaleTimeString` applied to the candle's open time. -/
def chartPointOf (tf : TimeFrame) (dateFmt timeFmt : Int → String)
    (gs : List Candle) (k : Candle) : ChartDataPoint :=
  { time := if tf = TimeFrame.D7 then dateFmt k.openTime else timeFmt k.openTime
    timestamp := k.openTime
    btc := k.close
    xau := jsOrDefault (goldMapGet gs k.openTime) 2650 }

/-- The tail of `fetchChartData` after both kline requests settle:
`if (!btcKlines || !goldKlines) return []`, otherwise map the primary
series through the join. -/
def buildChartPoints (tf : TimeFrame) (dateFmt timeFmt : Int → String)
    (btcKlines goldKlines : Option (List Candle)) : List ChartDataPoint :=
  match btcKlines, goldKlines with
  | some bs, some gs => bs.map (chartPointOf tf dateFmt timeFmt gs)
  | _, _ => []

/-- `fetchChartData`: both concurrent kline requests use the (interval,
limit) pair selected by the time frame; `resp` gives the `safeFetch`
outcome for a (pair, symbol) request. -/
def fetchChartData (tf : TimeFrame) (dateFmt timeFmt : Int → String)
    (resp : String × Nat → String → Option (List Candle)) : List ChartDataPoint :=
  buildChartPoints tf dateFmt timeFmt
    (resp (chartParams tf) "BTCUSDT")
    (resp (chartParams tf) "PAXGUSDT")

/-- Which Y axis a rendered series is bound to (`yAxisId` in MarketChart). -/
inductive Axis where
  | left | right
deriving DecidableEq, Repr

/-- The (visible-series, axis-binding) configuration MarketChart derives
from the chart mode. -/
structure ChartConfig where
  showRightAxis : Bool
  leftDataKey : String
  btcVisible : Bool
  btcAxis : Axis
  goldVisible : Bool
  goldAxis : Axis
deriving DecidableEq, Repr

/-- The mode-dependent render derivation of `MarketChart`:
`showRightAxis = chartMode === 'combined'`,
`leftDataKey = chartMode === 'gold' ? 'xau' : 'btc'`,
BTC Area rendered when mode is combined or btc (always on the left axis),
Gold Area rendered when mode is combined or gold, bound to the right axis
in combined mode and rebound to the left axis otherwise. -/
def chartConfig (mode : ChartMode) : ChartConfig :=
  { showRightAxis := mode == ChartMode.combined
    leftDataKey := if mode == ChartMode.gold then "xau" else "btc"
    btcVisible := mode == ChartMode.combined || mode == ChartMode.btc
    btcAxis := Axis.left
    goldVisible := mode == ChartMode.combined || mode == ChartMode.gold
    goldAxis := if mode == ChartMode.combined then Axis.right else Axis.left }

/-- The data fed to the `ComposedChart` element in `MarketChart`: the `data`
prop is passed through unchanged, whatever the selected mode. -/
def composedChartData (_mode : ChartMode) (data : List ChartDataPoint) :
    List ChartDataPoint :=
  data

/-- `InfoPanel`: `isGoldMode = chartMode === 'gold'`. -/
def isGoldMode (m : ChartMode) : Bool :=
  m == ChartMode.gold

/-- `InfoPanel`: `displayHighLow = isGoldMode ? highLowGold : highLowBtc`. -/
def displayHighLow (m : ChartMode) (highLowBtc highLowGold : List HighLowData) :
    List HighLowData :=
  if isGoldMode m then highLowGold else highLowBtc

/-- `App`: volatility data handed to the analysis panel,
`chartMode === 'gold' ? highLowGold : highLowBtc`. -/
def analysisVolatility (m : ChartMode) (highLowBtc highLowGold : List HighLowData) :
    List HighLowData :=
  if m == ChartMode.gold then highLowGold else highLowBtc

/-- `AIAnalysisPanel`: `hasApiKey = !!window.process?.env?.API_KEY` — the
credential is either absent (`undefined`) or a string, and the empty string
is falsy. -/
def hasApiKey (key : Option String) : Bool :=
  match key with
  | none => false
  | some s => !s.isEmpty

/-- `runDeepLearningAnalysis` of `AIAnalysisPanel`: with no credential it
returns `null` before the model client is even constructed; otherwise the
`generateContent` round trip (external, modelled by `net`: `some text` on
success, `none` for a thrown quota/auth/network error) yields the response
text, or the catch branch's literal warning string. -/
def runDeepLearningAnalysis (key : Option String) (net : Option String) :
    Option String :=
  if !hasApiKey key then none
  else
    match net with
    | some text => some text
    | none => some "⚠️ Neural Network Connection Failed. Check API Quota."

/-- The analysis text `handleAnalyze` stores: the "key missing" literal when
the analysis call returned `null`, else `result || "AI Model returned no
signal."`. -/
def analysisMessage (result : Option String) : String :=
  match result with
  | none => "⚠️ API KEY MISSING.\nPlease check process.env.API_KEY in index.html"
  | some r => if r.isEmpty then "AI Model returned no signal." else r

/-- The analysis trigger button's `disabled` prop:
`isAnalyzing || !hasApiKey`. -/
def analyzeDisabled (isAnalyzing : Bool) (key : Option String) : Bool :=
  isAnalyzing || !hasApiKey key

/-- Number of primary candles whose open-time has an exact match in the
secondary series (the `k` of the chart-series join property). -/
def matchCount (bs gs : List Candle) : Nat :=
  bs.countP (fun b => gs.any (fun g => g.openTime == b.openTime))

/-- Number of output points carrying the default secondary value 2650. -/
def defaultCount (ps : List ChartDataPoint) : Nat :=
  ps.countP (fun p => p.xau == JSNum.num 2650)

/-- A primary candle is well matched against the secondary series when its
matched close (if any) is truthy (neither 0 nor NaN) and distinct from the
default value 2650. -/
def goodClose (gs : List Candle) (b : Candle) : Bool :=
  match goldMapGet gs b.openTime with
  | some v => v.truthy && !(v == JSNum.num 2650)
  | none => true

lemma hlEntry_timeframe (label : String) (data : Option (List Candle)) :
    (hlEntry label data).timeframe = label := by
  rcases data with _ | cs
  · rfl
  · rcases h : cs.getLast? with _ | c <;> simp [hlEntry, h]

lemma goldMapGet_isSome_iff (gs : List Candle) (ts : Int) :
    (goldMapGet gs ts).isSome = true ↔ ∃ g ∈ gs, g.openTime = ts := by
  simp [goldMapGet, List.find?_isSome, List.mem_reverse]

/-- C3: every fetch accessor maps a failed underlying request (non-2xx,
network error, or JSON-parse failure, i.e. a `null` from `safeFetch`) to
exactly its documented fallback, with no escaping exception (the accessors
are total functions): the BTC ticker falls back to price 95000 / change 0,
the gold ticker to price 2650 / change 0, the funding list keeps its two
fixed entries, each high/low window degrades to the zero-valued record,
and the chart join returns the empty list. -/
theorem fetch_accessors_fallback :
    fetchBTCPrice none = ⟨JSNum.num 95000, JSNum.num 0, none⟩ ∧
    fetchGoldPrice none = ⟨JSNum.num 2650, JSNum.num 0⟩ ∧
    (∀ r : ℚ, fetchFundingRates none r =
      [⟨"Binance", JSNum.num (1/100)⟩, ⟨"Bybit", JSNum.num r⟩]) ∧
    fetchHighLow (fun _ => none) =
      [⟨"1H", JSNum.num 0, JSNum.num 0, JSNum.num 0⟩,
       ⟨"4H", JSNum.num 0, JSNum.num 0, JSNum.num 0⟩,
       ⟨"24H", JSNum.num 0, JSNum.num 0, JSNum.num 0⟩,
       ⟨"7D", JSNum.num 0, JSNum.num 0, JSNum.num 0⟩] ∧
    (∀ tf dateFmt timeFmt g, buildChartPoints tf dateFmt timeFmt none g = []) ∧
    (∀ tf dateFmt timeFmt b, buildChartPoints tf dateFmt timeFmt b none = []) := by
  refine ⟨rfl, rfl, fun r => rfl, rfl, ?_, ?_⟩
  · intro tf dateFmt timeFmt g
    rcases g with _ | gs <;> rfl
  · intro tf dateFmt timeFmt b
    rcases b with _ | bs <;> rfl

/-- C5: the time-frame to (candle interval, point count) mapping of
`fetchChartData` is total over the four tiers, assigns each tier a distinct
pair, sends the 7D tier to ("2h", 84) and the 1H tier to ("1m", 60), and
the accessor issues both requests with the pair selected by the requested
time frame. -/
theorem chartParams_mapping :
    chartParams TimeFrame.H1 = ("1m", 60) ∧
    chartParams TimeFrame.H4 = ("5m", 48) ∧
    chartParams TimeFrame.D1 = ("15m", 96) ∧
    chartParams TimeFrame.D7 = ("2h", 84) ∧
    (∀ a b : TimeFrame, a ≠ b → chartParams a ≠ chartParams b) ∧
    (∀ tf dateFmt timeFmt resp, fetchChartData tf dateFmt timeFmt resp =
      buildChartPoints tf dateFmt timeFmt
        (resp (chartParams tf) "BTCUSDT") (resp (chartParams tf) "PAXGUSDT")) :=
  ⟨rfl, rfl, rfl, rfl, by decide, fun _ _ _ _ => rfl⟩

/-- C7: the chart-mode derivation of `MarketChart` is a total, deterministic
function producing pairwise distinct (visible-series, axis-binding)
configurations: combined shows both series on independent axes (BTC left,
gold right, right axis shown), btc shows only the BTC series on the left
axis, gold hides the right axis and rebinds the gold series to the left
axis; and the data handed to the chart element is the snapshot's chart
series unchanged for every mode. -/
theorem chartMode_config :
    chartConfig ChartMode.combined =
      ⟨true, "btc", true, Axis.left, true, Axis.right⟩ ∧
    chartConfig ChartMode.btc =
      ⟨false, "btc", true, Axis.left, false, Axis.left⟩ ∧
    chartConfig ChartMode.gold =
      ⟨false, "xau", false, Axis.left, true, Axis.left⟩ ∧
    (∀ a b : ChartMode, a ≠ b → chartConfig a ≠ chartConfig b) ∧
    (∀ mode data, composedChartData mode data = data) :=
  ⟨rfl, rfl, rfl, by decide, fun _ _ => rfl⟩

/-- C8: the volatility panel's displayed list is a two-way switch on
gold-only mode: the gold list is selected exactly in mode gold, the BTC
list in modes btc and combined; the same switch is used by `App` for the
volatility data handed to the analysis panel. -/
theorem volatility_panel_switch (hlBtc hlGold : List HighLowData) :
    displayHighLow ChartMode.gold hlBtc hlGold = hlGold ∧
    displayHighLow ChartMode.btc hlBtc hlGold = hlBtc ∧
    displayHighLow ChartMode.combined hlBtc hlGold = hlBtc ∧
    (∀ m, displayHighLow m hlBtc hlGold =
      if isGoldMode m then hlGold else hlBtc) ∧
    (∀ m, analysisVolatility m hlBtc hlGold = displayHighLow m hlBtc hlGold) :=
  ⟨rfl, rfl, rfl, fun _ => rfl, fun _ => rfl⟩

/-- C9: if either concurrent kline request of `fetchChartData` fails
(`safeFetch` returns null), the accessor returns the empty list; in
particular a failure of the secondary (gold) series alone discards the
whole successfully fetched primary series. -/
theorem chart_join_requires_both (tf : TimeFrame) (dateFmt timeFmt : Int → String)
    (bs gs : List Candle) :
    buildChartPoints tf dateFmt timeFmt none (some gs) = [] ∧
    buildChartPoints tf dateFmt timeFmt (some bs) none = [] ∧
    buildChartPoints tf dateFmt timeFmt none none = [] :=
  ⟨rfl, rfl, rfl⟩

/-- C6: with no API credential configured, the analysis call returns null
before any model request (the result is the same whatever the network would
answer), the surfaced text is the literal key-missing message, that message
is distinct from both analysis-failure messages, and the trigger button is
disabled. -/
theorem missing_key_short_circuit (key : Option String) (net : Option String)
    (isAnalyzing : Bool) (h : hasApiKey key = false) :
    runDeepLearningAnalysis key net = none ∧
    analysisMessage (runDeepLearningAnalysis key net) =
      "⚠️ API KEY MISSING.\nPlease check process.env.API_KEY in index.html" ∧
    analysisMessage (runDeepLearningAnalysis key net) ≠
      "Connection to Deep Learning Engine failed." ∧
    analysisMessage (runDeepLearningAnalysis key net) ≠
      "⚠️ Neural Network Connection Failed. Check API Quota." ∧
    analyzeDisabled isAnalyzing key = true := by
  have h1 : runDeepLearningAnalysis key net = none := by
    unfold runDeepLearningAnalysis
    rw [h]
    rfl
  refine ⟨h1, by rw [h1]; rfl, by rw [h1]; decide, by rw [h1]; decide, ?_⟩
  unfold analyzeDisabled
  rw [h]
  simp

theorem missing_key_short_circuit_witness :
    runDeepLearningAnalysis none (some "signal") = none ∧
    analysisMessage (runDeepLearningAnalysis none (some "signal")) =
      "⚠️ API KEY MISSING.\nPlease check process.env.API_KEY in index.html" ∧
    analysisMessage (runDeepLearningAnalysis none (some "signal")) ≠
      "Connection to Deep Learning Engine failed." ∧
    analysisMessage (runDeepLearningAnalysis none (some "signal")) ≠
      "⚠️ Neural Network Connection Failed. Check API Quota." ∧
    analyzeDisabled false none = true :=
  missing_key_short_circuit none (some "signal") false rfl

/-- C10: the secondary value of a chart point is substituted through the
falsy coercion `goldMap.get(timestamp) || 2650`, so a primary candle whose
timestamp-matched secondary close is 0 or NaN still carries the default
2650, despite the timestamp match. -/
theorem falsy_secondary_close_defaults (tf : TimeFrame)
    (dateFmt timeFmt : Int → String) (gs : List Candle) (k : Candle) (v : JSNum)
    (hmatch : goldMapGet gs k.openTime = some v)
    (hfalsy : v = JSNum.num 0 ∨ v = JSNum.nan) :
    (chartPointOf tf dateFmt timeFmt gs k).xau = JSNum.num 2650 := by
  unfold chartPointOf jsOrDefault
  rw [hmatch]
  rcases hfalsy with rfl | rfl <;> simp [JSNum.truthy]

theorem falsy_secondary_close_defaults_witness :
    (chartPointOf TimeFrame.H1 (fun _ => "") (fun _ => "")
      [⟨0, JSNum.num 1, JSNum.num 1, JSNum.num 0⟩]
      ⟨0, JSNum.num 1, JSNum.num 1, JSNum.num 100⟩).xau = JSNum.num 2650 :=
  falsy_secondary_close_defaults TimeFrame.H1 (fun _ => "") (fun _ => "")
    [⟨0, JSNum.num 1, JSNum.num 1, JSNum.num 0⟩]
    ⟨0, JSNum.num 1, JSNum.num 1, JSNum.num 100⟩
    (JSNum.num 0) rfl (Or.inl rfl)

/-- C2 counterexample: the code guards the range with `low > 0`, not
`low == 0`; at (high, low) = (1, -1) the produced rangePercent is 0 while
the claimed formula (high - low) / low * 100 evaluates to -200, so the
claim's "otherwise" branch fails. -/
theorem hl_range_guard_counterexample :
    (hlEntry "1H" (some [⟨0, JSNum.num 1, JSNum.num (-1), JSNum.num 1⟩])).rangePercent
      = JSNum.num 0 ∧
    JSNum.num (-1) ≠ JSNum.num 0 ∧
    (((JSNum.num 1).sub (JSNum.num (-1))).div (JSNum.num (-1))).mul (JSNum.num 100)
      = JSNum.num (-200) ∧
    JSNum.num 0 ≠ JSNum.num (-200) := by
  refine ⟨rfl, by norm_num, ?_, by norm_num⟩
  norm_num [JSNum.sub, JSNum.div, JSNum.mul]

/-- C2 (amended): the rangePercent produced for a sampled high/low pair is
(high - low) / low * 100 exactly when low > 0 (including high == low, where
it is 0), and is 0 in every other case — low == 0 as claimed, but also
low < 0 and low = NaN; and the value stored in the window's HighLowSample
is this guarded range of the last candle. -/
theorem hl_range_spec (high low : JSNum) :
    (low = JSNum.num 0 → hlRange high low = JSNum.num 0) ∧
    (∀ h l : ℚ, high = JSNum.num h → low = JSNum.num l → 0 < l →
      hlRange high low = JSNum.num ((h - l) / l * 100)) ∧
    (∀ l : ℚ, low = JSNum.num l → l ≤ 0 → hlRange high low = JSNum.num 0) ∧
    (low = JSNum.nan → hlRange high low = JSNum.num 0) ∧
    (∀ l : ℚ, high = low → low = JSNum.num l → 0 < l →
      hlRange high low = JSNum.num 0) ∧
    (∀ label ts close,
      (hlEntry label (some [⟨ts, high, low, close⟩])).rangePercent
        = hlRange high low) := by
  refine ⟨?_, ?_, ?_, ?_, ?_, ?_⟩
  · rintro rfl
    simp [hlRange, JSNum.gtZero]
  · rintro h l rfl rfl hl
    simp [hlRange, JSNum.gtZero, JSNum.sub, JSNum.div, JSNum.mul, hl, hl.ne']
  · rintro l rfl hl
    simp [hlRange, JSNum.gtZero, not_lt.mpr hl]
  · rintro rfl
    simp [hlRange, JSNum.gtZero]
  · rintro l rfl rfl hl
    simp [hlRange, JSNum.gtZero, JSNum.sub, JSNum.div, JSNum.mul, hl, hl.ne']
  · intro label ts close
    rfl

theorem hl_range_spec_witness :
    hlRange (JSNum.num 3) (JSNum.num 2) = JSNum.num ((3 - 2) / 2 * 100) ∧
    hlRange (JSNum.num 5) (JSNum.num 0) = JSNum.num 0 ∧
    hlRange (JSNum.num 2) (JSNum.num 2) = JSNum.num 0 ∧
    hlRange (JSNum.num 5) JSNum.nan = JSNum.num 0 ∧
    (hlEntry "4H" (some [⟨7, JSNum.num 3, JSNum.num 2, JSNum.num 9⟩])).rangePercent
      = hlRange (JSNum.num 3) (JSNum.num 2) :=
  ⟨(hl_range_spec (JSNum.num 3) (JSNum.num 2)).2.1 3 2 rfl rfl (by norm_num),
   (hl_range_spec (JSNum.num 5) (JSNum.num 0)).1 rfl,
   (hl_range_spec (JSNum.num 2) (JSNum.num 2)).2.2.2.2.1 2 rfl rfl (by norm_num),
   (hl_range_spec (JSNum.num 5) JSNum.nan).2.2.2.1 rfl,
   (hl_range_spec (JSNum.num 3) (JSNum.num 2)).2.2.2.2.2 "4H" 7 (JSNum.num 9)⟩

/-- C4 counterexample: a failed Binance funding fetch yields the fixed
default rate 0.0100, not a zero-valued entry, so "failed fetches yield
zero-valued entries" fails for the funding list. -/
theorem funding_fallback_nonzero_counterexample :
    fetchFundingRates none (3/250) =
      [⟨"Binance", JSNum.num (1/100)⟩, ⟨"Bybit", JSNum.num (3/250)⟩] ∧
    JSNum.num (1/100) ≠ JSNum.num 0 :=
  ⟨rfl, by norm_num⟩

/-- C4 (amended): regardless of which individual requests fail,
`fetchFundingRates` returns exactly 2 entries in fixed order Binance then
Bybit, and `fetchHighLow` returns exactly 4 entries in the fixed window
order 1H, 4H, 24H, 7D; a failed (or empty) high/low window yields a
zero-valued entry in place, while a failed Binance funding fetch yields an
in-place entry with the fixed default rate 0.0100 — entries are never
absent. -/
theorem fixed_cardinality_lists (binanceData : Option FundingData)
    (bybitRate : ℚ) (resp : HLDef → Option (List Candle)) :
    (fetchFundingRates binanceData bybitRate).length = 2 ∧
    (fetchFundingRates binanceData bybitRate).map (fun f => f.exchange)
      = ["Binance", "Bybit"] ∧
    (fetchHighLow resp).length = 4 ∧
    (fetchHighLow resp).map (fun e => e.timeframe) = ["1H", "4H", "24H", "7D"] ∧
    (∀ label, hlEntry label none
      = ⟨label, JSNum.num 0, JSNum.num 0, JSNum.num 0⟩) ∧
    (∀ label, hlEntry label (some [])
      = ⟨label, JSNum.num 0, JSNum.num 0, JSNum.num 0⟩) ∧
    (binanceData = none →
      (fetchFundingRates binanceData bybitRate).map (fun f => f.rate)
        = [JSNum.num (1/100), JSNum.num bybitRate]) := by
  refine ⟨rfl, rfl, rfl, ?_, fun _ => rfl, fun _ => rfl, ?_⟩
  · simp [fetchHighLow, hlDefinitions, hlEntry_timeframe]
  · rintro rfl
    rfl

theorem fixed_cardinality_lists_witness :
    (fetchHighLow (fun _ => none)).map (fun e => e.timeframe)
      = ["1H", "4H", "24H", "7D"] ∧
    (fetchFundingRates none (1/50)).map (fun f => f.rate)
      = [JSNum.num (1/100), JSNum.num (1/50)] :=
  ⟨(fixed_cardinality_lists none (1/50) (fun _ => none)).2.2.2.1,
   (fixed_cardinality_lists none (1/50) (fun _ => none)).2.2.2.2.2.2 rfl⟩

/-- C1 counterexample: with primary series of one candle (m = 1) whose
timestamp 0 has an exact match in the secondary series (k = 1) but whose
matched secondary close is 0, the falsy coercion substitutes the default:
the output has 1 point carrying 2650, not m - k = 0, and the matched
candle does not carry the secondary close 0. -/
theorem chart_join_count_counterexample :
    (buildChartPoints TimeFrame.H1 (fun _ => "") (fun _ => "")
      (some [⟨0, JSNum.num 1, JSNum.num 1, JSNum.num 100⟩])
      (some [⟨0, JSNum.num 1, JSNum.num 1, JSNum.num 0⟩])).length = 1 ∧
    matchCount [⟨0, JSNum.num 1, JSNum.num 1, JSNum.num 100⟩]
      [⟨0, JSNum.num 1, JSNum.num 1, JSNum.num 0⟩] = 1 ∧
    defaultCount (buildChartPoints TimeFrame.H1 (fun _ => "") (fun _ => "")
      (some [⟨0, JSNum.num 1, JSNum.num 1, JSNum.num 100⟩])
      (some [⟨0, JSNum.num 1, JSNum.num 1, JSNum.num 0⟩])) = 1 ∧
    (1 : Nat) ≠ 1 - 1 ∧
    (chartPointOf TimeFrame.H1 (fun _ => "") (fun _ => "")
      [⟨0, JSNum.num 1, JSNum.num 1, JSNum.num 0⟩]
      ⟨0, JSNum.num 1, JSNum.num 1, JSNum.num 100⟩).xau ≠ JSNum.num 0 := by
  refine ⟨rfl, rfl, rfl, by decide, ?_⟩
  have hx : (chartPointOf TimeFrame.H1 (fun _ => "") (fun _ => "")
      [⟨0, JSNum.num 1, JSNum.num 1, JSNum.num 0⟩]
      ⟨0, JSNum.num 1, JSNum.num 1, JSNum.num 100⟩).xau = JSNum.num 2650 := rfl
  rw [hx]
  norm_num

lemma goodClose_spec (gs : List Candle) (b : Candle)
    (h : goodClose gs b = true) :
    ∀ v, goldMapGet gs b.openTime = some v →
      v.truthy = true ∧ v ≠ JSNum.num 2650 := by
  intro v hv
  unfold goodClose at h
  rw [hv] at h
  simpa using h

lemma chartPointOf_xau_of_none (tf : TimeFrame) (dateFmt timeFmt : Int → String)
    (gs : List Candle) (k : Candle) (h : goldMapGet gs k.openTime = none) :
    (chartPointOf tf dateFmt timeFmt gs k).xau = JSNum.num 2650 := by
  simp [chartPointOf, jsOrDefault, h]

lemma chartPointOf_xau_of_truthy (tf : TimeFrame) (dateFmt timeFmt : Int → String)
    (gs : List Candle) (k : Candle) (v : JSNum)
    (h : goldMapGet gs k.openTime = some v) (ht : v.truthy = true) :
    (chartPointOf tf dateFmt timeFmt gs k).xau = v := by
  simp [chartPointOf, jsOrDefault, h, ht]

lemma any_match_eq_isSome (gs : List Candle) (ts : Int) :
    gs.any (fun g => g.openTime == ts) = (goldMapGet gs ts).isSome := by
  rcases h : goldMapGet gs ts with _ | v
  · simp only [Option.isSome_none]
    rw [List.any_eq_false]
    intro g hg
    simp only [beq_iff_eq]
    intro hts
    have hmem : ∃ g ∈ gs, g.openTime = ts := ⟨g, hg, hts⟩
    rw [← goldMapGet_isSome_iff, h] at hmem
    simp at hmem
  · simp only [Option.isSome_some]
    rw [List.any_eq_true]
    have hs : (goldMapGet gs ts).isSome = true := by rw [h]; rfl
    obtain ⟨g, hg, hts⟩ := (goldMapGet_isSome_iff gs ts).mp hs
    exact ⟨g, hg, by simp [hts]⟩

lemma default_count_aux (tf : TimeFrame) (dateFmt timeFmt : Int → String)
    (gs : List Candle) :
    ∀ bs : List Candle, bs.all (goodClose gs) = true →
      defaultCount (bs.map (chartPointOf tf dateFmt timeFmt gs))
        = bs.length - matchCount bs gs := by
  intro bs
  induction bs with
  | nil => intro _; rfl
  | cons b rest ih =>
    intro hall
    rw [List.all_cons, Bool.and_eq_true] at hall
    obtain ⟨hb, hrest⟩ := hall
    have hk : matchCount rest gs ≤ rest.length := List.countP_le_length _
    unfold defaultCount matchCount at *
    rw [List.map_cons, List.countP_cons, List.countP_cons, ih hrest,
      List.length_cons]
    rcases h : goldMapGet gs b.openTime with _ | v
    · have hany : gs.any (fun g => g.openTime == b.openTime) = false := by
        rw [any_match_eq_isSome, h]
        rfl
      have hxau := chartPointOf_xau_of_none tf dateFmt timeFmt gs b h
      rw [hany, hxau]
      simp only [beq_self_eq_true, if_true, Bool.false_eq_true, if_false]
      omega
    · have hany : gs.any (fun g => g.openTime == b.openTime) = true := by
        rw [any_match_eq_isSome, h]
        rfl
      obtain ⟨ht, hne⟩ := goodClose_spec gs b hb v h
      have hxau := chartPointOf_xau_of_truthy tf dateFmt timeFmt gs b v h ht
      rw [hany, hxau]
      have hbeq : (v == JSNum.num 2650) = false := by
        simpa using hne
      rw [hbeq]
      simp only [if_true, Bool.false_eq_true, if_false]
      omega

/-- C1 (amended): the chart-series join always returns exactly m points
(one per primary candle); provided every matched secondary close is truthy
(neither 0 nor NaN — otherwise the falsy coercion substitutes the default)
and distinct from the default value 2650, exactly (m - k) of the points
carry the default secondary value 2650 and every matched primary candle
carries the secondary series' close value for its timestamp. -/
theorem chart_join_counts (tf : TimeFrame) (dateFmt timeFmt : Int → String)
    (bs gs : List Candle) (hgood : bs.all (goodClose gs) = true) :
    (buildChartPoints tf dateFmt timeFmt (some bs) (some gs)).length
      = bs.length ∧
    defaultCount (buildChartPoints tf dateFmt timeFmt (some bs) (some gs))
      = bs.length - matchCount bs gs ∧
    (∀ b ∈ bs, ∀ v, goldMapGet gs b.openTime = some v →
      (chartPointOf tf dateFmt timeFmt gs b).xau = v) := by
  refine ⟨by simp [buildChartPoints], ?_, ?_⟩
  · exact default_count_aux tf dateFmt timeFmt gs bs hgood
  · intro b hb v hv
    have hgb : goodClose gs b = true := List.all_eq_true.mp hgood b hb
    exact chartPointOf_xau_of_truthy tf dateFmt timeFmt gs b v hv
      (goodClose_spec gs b hgb v hv).1

theorem chart_join_counts_witness :
    (buildChartPoints TimeFrame.H4 (fun _ => "t") (fun _ => "t")
      (some [⟨0, JSNum.num 1, JSNum.num 1, JSNum.num 100⟩,
             ⟨5, JSNum.num 1, JSNum.num 1, JSNum.num 101⟩])
      (some [⟨0, JSNum.num 1, JSNum.num 1, JSNum.num 42⟩])).length = 2 ∧
    defaultCount (buildChartPoints TimeFrame.H4 (fun _ => "t") (fun _ => "t")
      (some [⟨0, JSNum.num 1, JSNum.num 1, JSNum.num 100⟩,
             ⟨5, JSNum.num 1, JSNum.num 1, JSNum.num 101⟩])
      (some [⟨0, JSNum.num 1, JSNum.num 1, JSNum.num 42⟩]))
      = 2 - matchCount
          [⟨0, JSNum.num 1, JSNum.num 1, JSNum.num 100⟩,
           ⟨5, JSNum.num 1, JSNum.num 1, JSNum.num 101⟩]
          [⟨0, JSNum.num 1, JSNum.num 1, JSNum.num 42⟩] ∧
    (chartPointOf TimeFrame.H4 (fun _ => "t") (fun _ => "t")
      [⟨0, JSNum.num 1, JSNum.num 1, JSNum.num 42⟩]
      ⟨0, JSNum.num 1, JSNum.num 1, JSNum.num 100⟩).xau = JSNum.num 42 := by
  have h := chart_join_counts TimeFrame.H4 (fun _ => "t") (fun _ => "t")
    [⟨0, JSNum.num 1, JSNum.num 1, JSNum.num 100⟩,
     ⟨5, JSNum.num 1, JSNum.num 1, JSNum.num 101⟩]
    [⟨0, JSNum.num 1, JSNum.num 1, JSNum.num 42⟩] rfl
  exact ⟨h.1, h.2.1,
    h.2.2 ⟨0, JSNum.num 1, JSNum.num 1, JSNum.num 100⟩
      (List.mem_cons_self _ _) (JSNum.num 42) rfl⟩

theorem fetch_accessors_fallback_witness :
    fetchFundingRates none (1/200) =
      [⟨"Binance", JSNum.num (1/100)⟩, ⟨"Bybit", JSNum.num (1/200)⟩] ∧
    buildChartPoints TimeFrame.H1 (fun _ => "") (fun _ => "") none (some []) = [] ∧
    buildChartPoints TimeFrame.H1 (fun _ => "") (fun _ => "") (some []) none = [] :=
  ⟨fetch_accessors_fallback.2.2.1 (1/200),
   fetch_accessors_fallback.2.2.2.2.1 TimeFrame.H1 (fun _ => "") (fun _ => "") (some []),
   fetch_accessors_fallback.2.2.2.2.2 TimeFrame.H1 (fun _ => "") (fun _ => "") (some [])⟩

theorem chartParams_mapping_witness :
    chartParams TimeFrame.D7 ≠ chartParams TimeFrame.H1 :=
  chartParams_mapping.2.2.2.2.1 TimeFrame.D7 TimeFrame.H1 (by decide)

theorem chartMode_config_witness :
    chartConfig ChartMode.gold ≠ chartConfig ChartMode.combined ∧
    composedChartData ChartMode.gold [] = ([] : List ChartDataPoint) :=
  ⟨chartMode_config.2.2.2.1 ChartMode.gold ChartMode.combined (by decide),
   chartMode_config.2.2.2.2 ChartMode.gold []⟩

theorem volatility_panel_switch_witness :
    displayHighLow ChartMode.gold []
      [⟨"1H", JSNum.num 1, JSNum.num 1, JSNum.num 0⟩]
      = [⟨"1H", JSNum.num 1, JSNum.num 1, JSNum.num 0⟩] ∧
    analysisVolatility ChartMode.btc []
      [⟨"1H", JSNum.num 1, JSNum.num 1, JSNum.num 0⟩]
      = displayHighLow ChartMode.btc []
          [⟨"1H", JSNum.num 1, JSNum.num 1, JSNum.num 0⟩] :=
  ⟨(volatility_panel_switch []
      [⟨"1H", JSNum.num 1, JSNum.num 1, JSNum.num 0⟩]).1,
   (volatility_panel_switch []
      [⟨"1H", JSNum.num 1, JSNum.num 1, JSNum.num 0⟩]).2.2.2.2 ChartMode.btc⟩

theorem chart_join_requires_both_witness :
    buildChartPoints TimeFrame.H1 (fun _ => "") (fun _ => "")
      (some [⟨0, JSNum.num 1, JSNum.num 1, JSNum.num 2⟩]) none = [] :=
  (chart_join_requires_both TimeFrame.H1 (fun _ => "") (fun _ => "")
    [⟨0, JSNum.num 1, JSNum.num 1, JSNum.num 2⟩] []).2.1
